import Mathlib

/-!
Shallow embedding of the coordination core of GitHangar/lightkeeper
(connection manager, host manager, monitor manager, command handler),
translated from the Rust sources, together with theorems settling the
frozen specification claims.

Conventions of the embedding:
* Rust `HashMap` tables become association lists `List (String × α)`
  with `lookupA` / `insertA`; only lookup, insert-or-replace and
  iteration for an existence check are used by the embedded code, so
  list order never influences any claim.
* Rust `VecDeque` becomes `List`, with `push_back` as append and
  `pop_front` as `List.drop 1`; the back of the deque is `List.getLast?`.
* `Result<T, E>` becomes `Except E T`, `Option` stays `Option`.
* A Rust `panic!` / failed `unwrap()` is modelled as a distinguished
  outcome (`none`, or a dedicated constructor such as `panicked`), so
  every embedded function stays total and executable.
* The `FnOnce` response-handler callbacks are modelled observationally:
  a worker step returns the argument vector the handler would be given,
  or a constructor recording that the handler was never invoked.
-/

namespace Lightkeeper

/-- Modelled from the spec: criticality levels of a data point
(the enum itself is not part of the given source snapshot). -/
inductive Criticality where
  | Normal
  | Info
  | Warning
  | Err
  | Critical
  | NoData
deriving DecidableEq, Repr

/-- Modelled from the spec: per-host status values. -/
inductive HostStatus where
  | Pending
  | Up
  | Down
deriving DecidableEq, Repr

/-- Modelled from the spec: `(id, version)` pair identifying a module. -/
structure ModuleSpecification where
  id : String
  version : String
deriving DecidableEq, Repr

/-- Modelled from the spec: display options of a module; only the fields
the embedded manager code reads are kept. -/
structure DisplayOptions where
  category : String
  unit : String
  display_text : String
deriving DecidableEq, Repr

/-- Modelled from the spec: one timestamped observation.  The payload
fields the manager code never branches on (description, tags,
command_params, wall-clock timestamp) are omitted.  `multivalue`
children make the type a nested inductive. -/
inductive DataPoint where
  | mk (label : String) (value : String) (criticality : Criticality)
       (multivalue : List DataPoint) (invocation_id : Nat)
deriving Repr

def DataPoint.label : DataPoint → String
  | .mk l _ _ _ _ => l

def DataPoint.value : DataPoint → String
  | .mk _ v _ _ _ => v

def DataPoint.criticality : DataPoint → Criticality
  | .mk _ _ c _ _ => c

def DataPoint.multivalue : DataPoint → List DataPoint
  | .mk _ _ _ m _ => m

def DataPoint.invocation_id : DataPoint → Nat
  | .mk _ _ _ _ i => i

/-- Field update for `invocation_id`, mirroring the Rust assignment
`new_result.invocation_id = invocation_id`. -/
def DataPoint.with_invocation_id : DataPoint → Nat → DataPoint
  | .mk l v c m _, i => .mk l v c m i

/-- Modelled from the spec: an empty data point (all fields default). -/
def DataPoint.empty : DataPoint := .mk "" "" .Normal [] 0

/-- Modelled from the spec: empty data point at `Critical` level, used as
the initial parent result of a monitor refresh chain. -/
def DataPoint.empty_and_critical : DataPoint := .mk "" "" .Critical [] 0

/-- Modelled from the spec: the seed point indicating that no data has
been received yet. -/
def DataPoint.no_data : DataPoint := .mk "" "" .NoData [] 0

/-- Modelled from the spec: monitor history as kept by HostManager: a
FIFO ring of recent data points plus display options and the
`is_critical` flag. -/
structure MonitoringData where
  monitor_id : String
  values : List DataPoint
  display_options : DisplayOptions
  is_critical : Bool
deriving Repr

/-- Modelled from the spec: `MonitoringData::new(monitor_id,
display_options)` creates an entry with an empty value ring. -/
def MonitoringData.new (monitor_id : String) (display_options : DisplayOptions) :
    MonitoringData :=
  { monitor_id := monitor_id
    values := []
    display_options := display_options
    is_critical := false }

/-- Modelled from the spec: result of one command execution. -/
structure CommandResult where
  message : String
  criticality : Criticality
  invocation_id : Nat
  command_id : String
  hidden : Bool
deriving DecidableEq, Repr

/-- Modelled from the spec: error-level command result, published when a
command fails before dispatch. -/
def CommandResult.new_error (message : String) : CommandResult :=
  { message := message, criticality := .Err, invocation_id := 0
    command_id := "", hidden := false }

/-- Modelled from the spec: platform information of a host; the four
fields parsed by `HostManager::read_platform_info`.  The enum-valued
fields (operating system, flavor, architecture) are abstracted to their
raw strings. -/
structure PlatformInfo where
  os : String
  os_version : String
  os_flavor : String
  architecture : String
deriving DecidableEq, Repr

def PlatformInfo.default : PlatformInfo :=
  { os := "", os_version := "", os_flavor := "", architecture := "" }

/-- Modelled from the spec: a registered host. -/
structure Host where
  name : String
  fqdn : String
  ip_address : String
  platform : PlatformInfo
deriving DecidableEq, Repr

/-- Modelled from the spec: one connector response,
`{message, return_code, is_error}`. -/
structure ResponseMessage where
  message : String
  return_code : Int
  is_error : Bool
deriving DecidableEq, Repr

/-- Modelled from the spec: `ResponseMessage::new` wraps a message with
return code zero. -/
def ResponseMessage.new (message : String) : ResponseMessage :=
  { message := message, return_code := 0, is_error := false }

/-- Modelled from the spec: the empty response message. -/
def ResponseMessage.empty : ResponseMessage := ResponseMessage.new ""

/-! ### Association-list embedding of `HashMap` -/

/-- Lookup in an association list, embedding `HashMap::get`. -/
def lookupA {α : Type} : List (String × α) → String → Option α
  | [], _ => none
  | (k0, v0) :: rest, k => if k0 = k then some v0 else lookupA rest k

/-- Insert-or-replace in an association list, embedding
`HashMap::insert` (and in-place mutation through `get_mut`). -/
def insertA {α : Type} : List (String × α) → String → α → List (String × α)
  | [], k, v => [(k, v)]
  | (k0, v0) :: rest, k, v =>
    if k0 = k then (k, v) :: rest else (k0, v0) :: insertA rest k v

/-! ### ConnectionManager (src/connection_manager.rs) -/

/-- Request type of a `ConnectorRequest` (src/connection_manager.rs,
enum `RequestType`). -/
inductive RequestType where
  | Command
  | Download
  | Upload
  | Exit
deriving DecidableEq, Repr

/-- A `ConnectorRequest` as received by the worker of
`ConnectionManager::start_receiving_messages`.  The `response_handler`
callback is not a field here; whether and with which argument it is
invoked is recorded in the worker outcome (`WorkerStep`). -/
structure ConnectorRequest where
  connector_id : Option ModuleSpecification
  source_id : String
  host : Host
  messages : List String
  request_type : RequestType

/-- Behavioural model of a connection module as used by the worker loop:
`is_connected`, `connect`, and per-message effects.  For `Download` the
function already includes the `file_handler::create_file` composition
from the worker (its result is the final per-message
`Result<ResponseMessage, String>`); likewise `upload` includes the local
file read, the remote upload and the temporary-file removal. -/
structure ConnectionModule where
  is_connected : Bool
  connect : String → Except String Unit
  send_message : String → Except String ResponseMessage
  download : String → Except String ResponseMessage
  upload : String → Except String ResponseMessage

/-- The per-request message loop of
`ConnectionManager::start_receiving_messages` (lines 103-163).  Returns
the `responses` vector handed to the response handler together with the
list of messages actually attempted on the connector, in order.

Faithful detail: in the `Command` arm the Rust code executes `break`
when a response arrives with non-zero `return_code` BEFORE
`responses.push(response_result)` runs, so that response is dropped and
the loop ends; an `Err` from `send_message` is pushed and the loop
continues. -/
def processMessages (c : ConnectionModule) (rt : RequestType) :
    List String → List (Except String ResponseMessage) × List String
  | [] => ([], [])
  | msg :: rest =>
    match rt with
    | .Command =>
      match c.send_message msg with
      | .ok resp =>
        if resp.return_code ≠ 0 then
          ([], [msg])
        else
          let (rs, sent) := processMessages c rt rest
          (.ok resp :: rs, msg :: sent)
      | .error e =>
        let (rs, sent) := processMessages c rt rest
        (.error e :: rs, msg :: sent)
    | .Download =>
      let (rs, sent) := processMessages c rt rest
      (c.download msg :: rs, msg :: sent)
    | .Upload =>
      let (rs, sent) := processMessages c rt rest
      (c.upload msg :: rs, msg :: sent)
    | .Exit =>
      -- Unreachable: the worker returns on `Exit` before entering the
      -- loop; the source has `panic!()` here.
      ([], [])

/-- Outcome of one iteration of the worker loop of
`ConnectionManager::start_receiving_messages` for one received request.
`handlerCalled responses sent` means the response handler was invoked
exactly once with `responses`, after attempting the messages in `sent`;
`droppedNoHandler` means the iteration ended with `continue` without
ever invoking the handler (the connect-failure path, lines 96-100);
`panicked` models the failed `unwrap()` on the connector lookup
(line 94); `exited` is the graceful return on an `Exit` request. -/
inductive WorkerStep where
  | exited
  | handlerCalled (responses : List (Except String ResponseMessage)) (sent : List String)
  | droppedNoHandler
  | panicked
deriving Repr

/-- Number of times the response handler of the request is invoked
during the worker iteration. -/
def handlerInvocations : WorkerStep → Nat
  | .handlerCalled _ _ => 1
  | _ => 0

/-- Messages attempted on the connector during the worker iteration. -/
def attemptedMessages : WorkerStep → List String
  | .handlerCalled _ sent => sent
  | _ => []

/-- Connector table of the `ConnectionManager`: host name to connector
spec to connection module. -/
def lookupConnector (connectors : List (String × List (ModuleSpecification × ConnectionModule)))
    (host_name : String) (spec : ModuleSpecification) : Option ConnectionModule :=
  match lookupA connectors host_name with
  | none => none
  | some host_connectors =>
    match host_connectors.find? (fun p => p.1 = spec) with
    | none => none
    | some p => some p.2

/-- One iteration of the worker loop of
`ConnectionManager::start_receiving_messages` (lines 71-166) on one
received request. -/
def handleRequest (connectors : List (String × List (ModuleSpecification × ConnectionModule)))
    (req : ConnectorRequest) : WorkerStep :=
  if req.request_type = .Exit then
    .exited
  else
    match req.connector_id with
    | none =>
      -- Requests with no connector dependency: handler gets an empty vector.
      .handlerCalled [] []
    | some spec =>
      match lookupConnector connectors req.host.name spec with
      | none => .panicked
      | some c =>
        if c.is_connected then
          let (rs, sent) := processMessages c req.request_type req.messages
          .handlerCalled rs sent
        else
          match c.connect req.host.ip_address with
          | .ok _ =>
            let (rs, sent) := processMessages c req.request_type req.messages
            .handlerCalled rs sent
          | .error _ =>
            -- `log::error!(...); continue;` — the handler is never invoked.
            .droppedNoHandler

/-! ### HostManager (src/host_manager.rs) -/

/-- `DATA_POINT_BUFFER_SIZE` (src/host_manager.rs line 24). -/
def DATA_POINT_BUFFER_SIZE : Nat := 4

/-- `StateUpdateMessage` (src/host_manager.rs lines 232-240). -/
structure StateUpdateMessage where
  host_name : String
  display_options : DisplayOptions
  module_spec : ModuleSpecification
  data_point : Option DataPoint
  command_result : Option CommandResult
  exit_thread : Bool

/-- `StateUpdateMessage::exit_token`. -/
def StateUpdateMessage.exit_token : StateUpdateMessage :=
  { host_name := ""
    display_options := { category := "", unit := "", display_text := "" }
    module_spec := { id := "", version := "" }
    data_point := none
    command_result := none
    exit_thread := true }

/-- `HostState` (src/host_manager.rs lines 274-279). -/
structure HostState where
  host : Host
  status : HostStatus
  monitor_data : List (String × MonitoringData)
  command_results : List (String × CommandResult)

/-- `HostState::from_host`. -/
def HostState.from_host (host : Host) (status : HostStatus) : HostState :=
  { host := host, status := status, monitor_data := [], command_results := [] }

/-- `HostCollection::add` (src/host_manager.rs lines 263-270): reject a
duplicate name, otherwise insert a fresh `HostState`. -/
def HostCollection.add (hosts : List (String × HostState)) (host : Host)
    (default_status : HostStatus) : Except String (List (String × HostState)) :=
  if (lookupA hosts host.name).isSome then
    .error "Host already exists"
  else
    .ok (insertA hosts host.name (HostState.from_host host default_status))

/-- `HostManager::add_host` (src/host_manager.rs lines 57-60): delegates
to `HostCollection::add` with initial status `Pending`. -/
def HostManager.add_host (hosts : List (String × HostState)) (host : Host) :
    Except String (List (String × HostState)) :=
  HostCollection.add hosts host .Pending

/-- The predicate of the `find` in `HostState::update_status`
(src/host_manager.rs line 292-295):
`data.is_critical && data.values.back().unwrap().criticality == Critical`.
`none` models the `unwrap()` panic on an empty value ring; the `&&`
short-circuit means the unwrap is only reached when `is_critical`
holds. -/
def criticalCheck (md : MonitoringData) : Option Bool :=
  if md.is_critical then
    match md.values.getLast? with
    | some dp => some (dp.criticality = .Critical)
    | none => none
  else
    some false

/-- The `find` iteration of `HostState::update_status` over the monitor
data entries: stops at the first match; `none` if the predicate panics
first. -/
def findCritical : List (String × MonitoringData) → Option Bool
  | [] => some false
  | (_, md) :: rest =>
    match criticalCheck md with
    | none => none
    | some true => some true
    | some false => findCritical rest

/-- `HostState::update_status` (src/host_manager.rs lines 291-305):
`Down` when some `is_critical` monitor has a latest point at `Critical`
level, `Up` otherwise.  `none` models the panic. -/
def HostState.update_status (s : HostState) : Option HostState :=
  match findCritical s.monitor_data with
  | none => none
  | some true => some { s with status := .Down }
  | some false => some { s with status := .Up }

/-- Total version of the `update_status` predicate: the monitor is
`is_critical` and its latest point (if any) is at `Critical` level. -/
def downPred (md : MonitoringData) : Bool :=
  md.is_critical &&
    match md.values.getLast? with
    | some dp => dp.criticality = .Critical
    | none => false

/-- Boolean version of the status law: some monitor is `is_critical`,
has a latest point, and that point is at `Critical` level. -/
def downCondition (monitor_data : List (String × MonitoringData)) : Bool :=
  monitor_data.any (fun p => downPred p.2)

/-- `HostManager::read_platform_info` (src/host_manager.rs lines
202-222): fold the multivalue children into a `PlatformInfo`; an
unrecognised label aborts with an error.  The `from_str` parsing of the
enum-valued fields is abstracted to the raw strings. -/
def read_platform_info_fields (platform : PlatformInfo) :
    List DataPoint → Except String PlatformInfo
  | [] => .ok platform
  | d :: rest =>
    if d.label = "os" then
      read_platform_info_fields { platform with os := d.value } rest
    else if d.label = "os_version" then
      read_platform_info_fields { platform with os_version := d.value } rest
    else if d.label = "os_flavor" then
      read_platform_info_fields { platform with os_flavor := d.value } rest
    else if d.label = "architecture" then
      read_platform_info_fields { platform with architecture := d.value } rest
    else
      .error "Invalid platform info data"

def read_platform_info (data_point : DataPoint) : Except String PlatformInfo :=
  read_platform_info_fields PlatformInfo.default data_point.multivalue

/-- `frontend::HostDisplayData` as constructed by the update worker
(src/host_manager.rs lines 149-160). -/
structure HostDisplayData where
  name : String
  domain_name : String
  platform : PlatformInfo
  ip_address : String
  monitoring_data : List (String × MonitoringData)
  new_monitoring_data : Option MonitoringData
  command_results : List (String × CommandResult)
  new_command_results : Option CommandResult
  status : HostStatus
  exit_thread : Bool

/-- Outcome of one iteration of the update worker of
`HostManager::start_receiving_updates`: graceful exit, a panic
(failed `unwrap()`), or an updated host table together with the
`HostDisplayData` snapshot fanned out to every observer. -/
inductive HMStep where
  | exited
  | panicked
  | updated (hosts : List (String × HostState)) (display : HostDisplayData)

/-- The state mutation of the update worker for one message addressed
to `host_state` (src/host_manager.rs lines 100-142): returns the
mutated host state plus the `new_monitoring_data` and
`new_command_results` deltas. -/
def applyUpdate (host_state : HostState) (message : StateUpdateMessage) :
    HostState × Option MonitoringData × Option CommandResult :=
  match message.data_point with
  | some message_data_point =>
    if message_data_point.value = "_platform_info" then
      match read_platform_info message_data_point with
      | .ok platform =>
        ({ host_state with host := { host_state.host with platform := platform } }, none, none)
      | .error _ =>
        (host_state, none, none)
    else
      let new_entry :=
        match lookupA host_state.monitor_data message.module_spec.id with
        | some monitoring_data =>
          let pushed := monitoring_data.values ++ [message_data_point]
          { monitoring_data with
              values := if pushed.length > DATA_POINT_BUFFER_SIZE then pushed.drop 1 else pushed }
        | none =>
          let new_data := MonitoringData.new message.module_spec.id message.display_options
          { new_data with values := [message_data_point] }
      let hs := { host_state with
                    monitor_data := insertA host_state.monitor_data message.module_spec.id new_entry }
      -- `new.values = VecDeque::from(vec![message_data_point])`
      (hs, some { new_entry with values := [message_data_point] }, none)
  | none =>
    match message.command_result with
    | some command_result =>
      ({ host_state with
           command_results := insertA host_state.command_results message.module_spec.id command_result },
       none, some command_result)
    | none =>
      (host_state, none, none)

/-- One iteration of the update worker of
`HostManager::start_receiving_updates` (src/host_manager.rs lines
81-162) on one received message.  The lookup
`hosts.hosts.get_mut(&message.host_name).unwrap()` panics when the host
is unknown. -/
def processUpdate (hosts : List (String × HostState)) (message : StateUpdateMessage) : HMStep :=
  if message.exit_thread then
    .exited
  else
    match lookupA hosts message.host_name with
    | none => .panicked
    | some host_state =>
      let (hs1, new_monitoring_data, new_command_results) := applyUpdate host_state message
      match hs1.update_status with
      | none => .panicked
      | some hs2 =>
        .updated (insertA hosts message.host_name hs2)
          { name := hs2.host.name
            domain_name := hs2.host.fqdn
            platform := hs2.host.platform
            ip_address := hs2.host.ip_address
            monitoring_data := hs2.monitor_data
            new_monitoring_data := new_monitoring_data
            command_results := hs2.command_results
            new_command_results := new_command_results
            status := hs2.status
            exit_thread := false }

/-- Status reported to observers by a worker step, if any. -/
def stepStatus : HMStep → Option HostStatus
  | .updated _ display => some display.status
  | _ => none

/-- The updated host table of a worker step, if any. -/
def stepHosts : HMStep → Option (List (String × HostState))
  | .updated hosts _ => some hosts
  | _ => none

/-- The observer snapshot of a worker step, if any. -/
def stepDisplay : HMStep → Option HostDisplayData
  | .updated _ display => some display
  | _ => none

/-! ### MonitorManager (src/monitor_manager.rs) -/

/-- Behavioural model of a monitoring module as used by
`MonitorManager`: its spec, category, optional parent module (making it
an extension) and the two response-processing hooks. -/
structure Monitor where
  spec : ModuleSpecification
  category : String
  parent_module : Option ModuleSpecification
  process_response : ResponseMessage → DataPoint → Except String DataPoint
  process_responses : List ResponseMessage → DataPoint → Except String DataPoint

/-- The response-processing dispatch inside
`MonitorManager::get_response_handler` (src/monitor_manager.rs lines
217-226): the multi form for several responses, the single form for one
response, and the single form on an empty `ResponseMessage` when there
are none (connector-independent modules). -/
def stageProcess (monitor : Monitor) (responses : List ResponseMessage)
    (parent_result : DataPoint) : Except String DataPoint :=
  match responses with
  | [] => monitor.process_response ResponseMessage.empty parent_result
  | [r] => monitor.process_response r parent_result
  | rs => monitor.process_responses rs parent_result

/-- The `Ok` half of the partition in the response handlers
(`results.into_iter().partition(Result::is_ok)`), order preserved. -/
def okResponses (results : List (Except String ResponseMessage)) : List ResponseMessage :=
  results.filterMap (fun r =>
    match r with
    | .ok resp => some resp
    | .error _ => none)

/-- The `Err` half of the same partition, order preserved. -/
def errorsOf (results : List (Except String ResponseMessage)) : List String :=
  results.filterMap (fun r =>
    match r with
    | .ok _ => none
    | .error e => some e)

/-- One stage of the response-handler chain
(`MonitorManager::get_response_handler`, src/monitor_manager.rs lines
203-256): partition the raw results, run the processing hooks when
there was no connector error, keep the parent result on any error, and
stamp the invocation id. -/
def stageResult (monitor : Monitor) (results : List (Except String ResponseMessage))
    (invocation_id : Nat) (parent_result : DataPoint) : DataPoint :=
  let new_result :=
    if (errorsOf results).isEmpty then
      match stageProcess monitor (okResponses results) parent_result with
      | .ok data_point => data_point
      | .error _ => parent_result
    else
      parent_result
  new_result.with_invocation_id invocation_id

/-- The recursive response-handler chain of `MonitorManager`: each
stage consumes the raw connector results of its module
(`send_connector_request` then `get_response_handler`); the final stage
publishes a `StateUpdateMessage` for its own module spec carrying the
resulting data point.  `none` only for an empty chain, which the
dispatcher never constructs. -/
def runChain (invocation_id : Nat) (parent_result : DataPoint) :
    List (Monitor × List (Except String ResponseMessage)) →
    Option (ModuleSpecification × DataPoint)
  | [] => none
  | (monitor, results) :: rest =>
    let new_result := stageResult monitor results invocation_id parent_result
    match rest with
    | [] => some (monitor.spec, new_result)
    | _ :: _ => runChain invocation_id new_result rest

/-- The invocation ids allocated by `MonitorManager::refresh_monitors`
(src/monitor_manager.rs lines 150-178): the monitors are partitioned
into bases (no `parent_module`) and extensions, and one id —
`counter + 1`, `counter + 2`, … — is allocated per base.  The function
takes `&self`, so the counter field itself is not advanced here. -/
def refresh_monitors_ids (counter : Nat) (monitors : List Monitor) : List Nat :=
  let bases := monitors.filter (fun m => m.parent_module.isNone)
  List.range' (counter + 1) bases.length

/-- `MonitorManager::refresh_monitors_of_category` (src/monitor_manager.rs
lines 109-118): filter by category, dispatch, then
`invocation_ids.last().unwrap()` — `none` models that panic on an empty
id list.  On success the pair is (returned ids, new counter value). -/
def refresh_monitors_of_category (counter : Nat) (monitors : List Monitor)
    (category : String) : Option (List Nat × Nat) :=
  let ids := refresh_monitors_ids counter (monitors.filter (fun m => m.category = category))
  match ids.getLast? with
  | none => none
  | some last => some (ids, last)

/-- `MonitorManager::refresh_monitors_by_id` (src/monitor_manager.rs
lines 122-131): same shape, filtering by monitor id. -/
def refresh_monitors_by_id (counter : Nat) (monitors : List Monitor)
    (monitor_id : String) : Option (List Nat × Nat) :=
  let ids := refresh_monitors_ids counter (monitors.filter (fun m => m.spec.id = monitor_id))
  match ids.getLast? with
  | none => none
  | some last => some (ids, last)

/-- `MonitorManager::refresh_host_monitors` (src/monitor_manager.rs
lines 134-148): extend the id list with `refresh_monitors` once per
selected host collection.  Because `refresh_monitors` takes `&self`,
every per-host call starts from the same, not-yet-advanced counter.
Finally `invocation_ids.last().unwrap()` (`none` models the panic). -/
def refresh_host_monitors (counter : Nat) (collections : List (List Monitor)) :
    Option (List Nat × Nat) :=
  let ids := (collections.map (fun coll => refresh_monitors_ids counter coll)).flatten
  match ids.getLast? with
  | none => none
  | some last => some (ids, last)

/-! ### CommandHandler (src/command_handler.rs) -/

/-- `get_command_connector_messages` (src/command_handler.rs lines
530-553): combine the multi-message and the single-message forms of the
command module — an empty error message means "not implemented" and is
ignored, a non-empty error aborts — then drop empty messages.  The two
arguments are the results of `get_connector_messages` and
`get_connector_message` for the given host and parameters. -/
def get_command_connector_messages (multi : Except String (List String))
    (single : Except String String) : Except String (List String) :=
  let fromMulti : Except String (List String) :=
    match multi with
    | .ok messages => .ok messages
    | .error e => if e.isEmpty then .ok [] else .error e
  match fromMulti with
  | .error e => .error e
  | .ok all_messages =>
    match single with
    | .ok message => .ok ((all_messages ++ [message]).filter (fun m => !m.isEmpty))
    | .error e =>
      if e.isEmpty then .ok (all_messages.filter (fun m => !m.isEmpty))
      else .error e

/-- Observable outcome of `CommandHandler::execute`
(src/command_handler.rs lines 99-148): the returned invocation id, the
counter value after the call, the error `CommandResult` published on
the failure path, and whether a connector request was dispatched. -/
structure ExecuteOutcome where
  returned_id : Nat
  counter_after : Nat
  error_update : Option CommandResult
  request_sent : Bool
deriving DecidableEq, Repr

/-- `CommandHandler::execute`: on a message-generation error, publish an
error `CommandResult` state update and return 0 without touching the
counter; otherwise increment the counter, dispatch the request, and
return the new counter value. -/
def CommandHandler.execute (counter : Nat) (multi : Except String (List String))
    (single : Except String String) : ExecuteOutcome :=
  match get_command_connector_messages multi single with
  | .error e =>
    { returned_id := 0
      counter_after := counter
      error_update := some (CommandResult.new_error e)
      request_sent := false }
  | .ok _ =>
    { returned_id := counter + 1
      counter_after := counter + 1
      error_update := none
      request_sent := true }

/-! ### Concrete fixtures used by counterexamples and witnesses -/

def emptyDisplayOptions : DisplayOptions :=
  { category := "", unit := "", display_text := "" }

def hostH1 : Host :=
  { name := "h1", fqdn := "h1.example", ip_address := "10.0.0.1"
    platform := PlatformInfo.default }

def hostH2 : Host :=
  { name := "h2", fqdn := "", ip_address := "10.0.0.2"
    platform := PlatformInfo.default }

def sshSpec : ModuleSpecification := { id := "ssh", version := "0.0.1" }

/-- A connector that reports disconnected and whose connect attempt
fails (scenario S4 of the spec). -/
def failingConnector : ConnectionModule :=
  { is_connected := false
    connect := fun _ => .error "connection refused"
    send_message := fun m => .ok (ResponseMessage.new m)
    download := fun _ => .error "no io"
    upload := fun _ => .error "no io" }

def c1Connectors : List (String × List (ModuleSpecification × ConnectionModule)) :=
  [("h2", [(sshSpec, failingConnector)])]

def c1Request : ConnectorRequest :=
  { connector_id := some sshSpec, source_id := "uptime", host := hostH2
    messages := ["uptime -p"], request_type := .Command }

/-- A request with no connector dependency. -/
def noConnectorRequest : ConnectorRequest :=
  { connector_id := none, source_id := "static", host := hostH2
    messages := [], request_type := .Command }

/-- Scenario S2 connector: every message succeeds with return code 0
except `"fail"`, which succeeds with return code 1. -/
def s2Connector : ConnectionModule :=
  { is_connected := true
    connect := fun _ => .ok ()
    send_message := fun m =>
      if m = "fail" then .ok { message := "", return_code := 1, is_error := false }
      else .ok (ResponseMessage.new m)
    download := fun _ => .error "no io"
    upload := fun _ => .error "no io" }

def failResponse : ResponseMessage := { message := "", return_code := 1, is_error := false }

/-- A host table holding only `h1`, still `Pending`. -/
def pendingHosts : List (String × HostState) :=
  [("h1", HostState.from_host hostH1 .Pending)]

/-- A state update carrying only a command result. -/
def cmdResultMsg : StateUpdateMessage :=
  { host_name := "h1", display_options := emptyDisplayOptions
    module_spec := { id := "reboot", version := "1" }
    data_point := none
    command_result := some
      { message := "done", criticality := .Normal, invocation_id := 1
        command_id := "reboot", hidden := false }
    exit_thread := false }

def defaultDisplayData : HostDisplayData :=
  { name := "", domain_name := "", platform := PlatformInfo.default, ip_address := ""
    monitoring_data := [], new_monitoring_data := none, command_results := []
    new_command_results := none, status := .Pending, exit_thread := false }

def c4OutHosts : List (String × HostState) :=
  (stepHosts (processUpdate pendingHosts cmdResultMsg)).getD []

def c4OutDisplay : HostDisplayData :=
  (stepDisplay (processUpdate pendingHosts cmdResultMsg)).getD defaultDisplayData

def dpNamed (v : String) : DataPoint := .mk "lbl" v .Normal [] 0

/-- A monitor ring already holding `DATA_POINT_BUFFER_SIZE` points. -/
def fullMonitoringData : MonitoringData :=
  { monitor_id := "disk"
    values := [dpNamed "a", dpNamed "b", dpNamed "c", dpNamed "d"]
    display_options := emptyDisplayOptions
    is_critical := false }

def c5State : HostState :=
  { host := hostH1, status := .Up
    monitor_data := [("disk", fullMonitoringData)], command_results := [] }

def c5Hosts : List (String × HostState) := [("h1", c5State)]

def dpFresh : DataPoint := .mk "lbl" "e" .Normal [] 9

def c5Msg : StateUpdateMessage :=
  { host_name := "h1", display_options := emptyDisplayOptions
    module_spec := { id := "disk", version := "1" }
    data_point := some dpFresh, command_result := none, exit_thread := false }

def c5OutHosts : List (String × HostState) :=
  (stepHosts (processUpdate c5Hosts c5Msg)).getD []

def c5OutDisplay : HostDisplayData :=
  (stepDisplay (processUpdate c5Hosts c5Msg)).getD defaultDisplayData

/-- A state update carrying the distinguished `"_platform_info"` data
point with `os` and `os_version` children. -/
def platformMsg : StateUpdateMessage :=
  { host_name := "h1", display_options := emptyDisplayOptions
    module_spec := { id := "platform-info-ssh", version := "1" }
    data_point := some (.mk "" "_platform_info" .Normal
      [.mk "os" "linux" .Normal [] 0, .mk "os_version" "12" .Normal [] 0] 0)
    command_result := none, exit_thread := false }

def c7OutHosts : List (String × HostState) :=
  (stepHosts (processUpdate pendingHosts platformMsg)).getD []

def c7OutDisplay : HostDisplayData :=
  (stepDisplay (processUpdate pendingHosts platformMsg)).getD defaultDisplayData

/-- A non-exit message for a host name absent from the table. -/
def unknownHostMsg : StateUpdateMessage :=
  { host_name := "ghost", display_options := emptyDisplayOptions
    module_spec := { id := "m", version := "1" }
    data_point := none, command_result := none, exit_thread := false }

/-- A second unknown-host message on a distinct input. -/
def unknownHostMsg2 : StateUpdateMessage :=
  { host_name := "other-ghost", display_options := emptyDisplayOptions
    module_spec := { id := "m", version := "1" }
    data_point := some (dpNamed "v"), command_result := none, exit_thread := false }

/-- The data points of the monitor-chain fixture (scenario S3). -/
def dpBase : DataPoint := .mk "x" "1" .Normal [] 0

def dpExtension : DataPoint := .mk "x" "1-ext" .Normal [] 0

def specB : ModuleSpecification := { id := "b", version := "1" }

/-- Base monitor: always produces `dpBase`. -/
def monB : Monitor :=
  { spec := specB, category := "c", parent_module := none
    process_response := fun _ _ => .ok dpBase
    process_responses := fun _ _ => .ok dpBase }

/-- Extension of `monB`: always produces `dpExtension`. -/
def monE : Monitor :=
  { spec := { id := "e", version := "1" }, category := "c", parent_module := some specB
    process_response := fun _ _ => .ok dpExtension
    process_responses := fun _ _ => .ok dpExtension }

/-- A base monitor (no parent module) used by the refresh fixtures. -/
def uptimeMonitor : Monitor :=
  { spec := { id := "uptime", version := "1" }, category := "host", parent_module := none
    process_response := fun _ p => .ok p
    process_responses := fun _ p => .ok p }

/-- An extension monitor used by the refresh fixtures. -/
def uptimeExtension : Monitor :=
  { spec := { id := "uptime-ext", version := "1" }, category := "host"
    parent_module := some { id := "uptime", version := "1" }
    process_response := fun _ p => .ok p
    process_responses := fun _ p => .ok p }

/-! ### Helper lemmas -/

theorem lookupA_insertA_self {α : Type} (l : List (String × α)) (k : String) (v : α) :
    lookupA (insertA l k v) k = some v := by
  induction l with
  | nil => simp [insertA, lookupA]
  | cons p rest ih =>
    by_cases h : p.1 = k
    · simp [insertA, lookupA, h]
    · simp [insertA, lookupA, h, ih]

theorem lookupA_insertA_ne {α : Type} (l : List (String × α)) (k k2 : String) (v : α)
    (h : k2 ≠ k) : lookupA (insertA l k v) k2 = lookupA l k2 := by
  have hk : ¬ k = k2 := fun he => h he.symm
  induction l with
  | nil => simp [insertA, lookupA, hk]
  | cons p rest ih =>
    by_cases hp : p.1 = k
    · subst hp
      simp [insertA, lookupA, hk]
    · by_cases hp2 : p.1 = k2
      · simp [insertA, lookupA, hp, hp2, hk, h]
      · simp [insertA, lookupA, hp, hp2, ih]

theorem mem_insertA {α : Type} (l : List (String × α)) (k : String) (v : α)
    (p : String × α) (h : p ∈ insertA l k v) : p = (k, v) ∨ p ∈ l := by
  induction l with
  | nil => simpa [insertA] using h
  | cons q rest ih =>
    by_cases hq : q.1 = k
    · simp only [insertA, if_pos hq, List.mem_cons] at h
      rcases h with h | h
      · exact Or.inl h
      · exact Or.inr (List.mem_cons_of_mem _ h)
    · simp only [insertA, if_neg hq, List.mem_cons] at h
      rcases h with h | h
      · exact Or.inr (h ▸ List.mem_cons_self _ _)
      · rcases ih h with h2 | h2
        · exact Or.inl h2
        · exact Or.inr (List.mem_cons_of_mem _ h2)

theorem lookupA_mem {α : Type} (l : List (String × α)) (k : String) (v : α)
    (h : lookupA l k = some v) : (k, v) ∈ l := by
  induction l with
  | nil => simp [lookupA] at h
  | cons p rest ih =>
    obtain ⟨pk, pv⟩ := p
    by_cases hp : pk = k
    · subst hp
      simp only [lookupA, if_pos rfl] at h
      cases h
      exact List.mem_cons_self _ _
    · simp only [lookupA, if_neg hp] at h
      exact List.mem_cons_of_mem _ (ih h)

theorem criticalCheck_spec (md : MonitoringData) (b : Bool)
    (h : criticalCheck md = some b) : downPred md = b := by
  unfold criticalCheck at h
  unfold downPred
  by_cases hc : md.is_critical
  · rw [if_pos hc] at h
    cases hl : md.values.getLast? with
    | none => rw [hl] at h; cases h
    | some dp =>
      rw [hl] at h
      cases h
      simp [hc, hl]
  · rw [if_neg hc] at h
    cases h
    simp only [Bool.not_eq_true] at hc
    simp [hc]

theorem downCondition_cons (p : String × MonitoringData) (rest : List (String × MonitoringData)) :
    downCondition (p :: rest) = (downPred p.2 || downCondition rest) := by
  simp [downCondition, List.any_cons]

theorem findCritical_downCondition (l : List (String × MonitoringData)) (b : Bool)
    (h : findCritical l = some b) : downCondition l = b := by
  induction l with
  | nil =>
    simp only [findCritical, Option.some.injEq] at h
    simp [downCondition, ← h]
  | cons p rest ih =>
    simp only [findCritical] at h
    cases hc : criticalCheck p.2 with
    | none => rw [hc] at h; cases h
    | some bb =>
      rw [hc] at h
      have hp := criticalCheck_spec p.2 bb hc
      cases bb
      · rw [downCondition_cons, hp, Bool.false_or]
        exact ih h
      · cases h
        rw [downCondition_cons, hp, Bool.true_or]

theorem update_status_spec (s s2 : HostState) (h : s.update_status = some s2) :
    s2.host = s.host ∧ s2.monitor_data = s.monitor_data ∧
    s2.command_results = s.command_results ∧
    (s2.status = .Down ↔ downCondition s.monitor_data = true) ∧
    (s2.status = .Down ∨ s2.status = .Up) := by
  unfold HostState.update_status at h
  cases hf : findCritical s.monitor_data with
  | none => rw [hf] at h; cases h
  | some b =>
    rw [hf] at h
    have hd := findCritical_downCondition _ _ hf
    cases b
    · cases h
      refine ⟨rfl, rfl, rfl, ?_, Or.inr rfl⟩
      simp [hd]
    · cases h
      refine ⟨rfl, rfl, rfl, ?_, Or.inl rfl⟩
      simp [hd]

theorem processUpdate_updated (hosts : List (String × HostState)) (message : StateUpdateMessage)
    (hosts2 : List (String × HostState)) (display : HostDisplayData)
    (h : processUpdate hosts message = .updated hosts2 display) :
    message.exit_thread = false ∧
    ∃ host_state hs2,
      lookupA hosts message.host_name = some host_state ∧
      (applyUpdate host_state message).1.update_status = some hs2 ∧
      hosts2 = insertA hosts message.host_name hs2 ∧
      display =
        { name := hs2.host.name
          domain_name := hs2.host.fqdn
          platform := hs2.host.platform
          ip_address := hs2.host.ip_address
          monitoring_data := hs2.monitor_data
          new_monitoring_data := (applyUpdate host_state message).2.1
          command_results := hs2.command_results
          new_command_results := (applyUpdate host_state message).2.2
          status := hs2.status
          exit_thread := false } := by
  unfold processUpdate at h
  by_cases hexit : message.exit_thread = true
  · rw [if_pos hexit] at h; cases h
  · rw [if_neg hexit] at h
    refine ⟨by simpa using hexit, ?_⟩
    cases hlook : lookupA hosts message.host_name with
    | none => rw [hlook] at h; cases h
    | some host_state =>
      rw [hlook] at h
      rcases happ : applyUpdate host_state message with ⟨hs1, nm, nc⟩
      simp only [happ] at h
      cases hupd : hs1.update_status with
      | none => simp only [hupd] at h; cases h
      | some hs2 =>
        simp only [hupd] at h
        cases h
        refine ⟨host_state, hs2, rfl, ?_, rfl, ?_⟩
        · rw [happ]; exact hupd
        · rw [happ]

theorem applyUpdate_data_point (hs : HostState) (message : StateUpdateMessage) (dp : DataPoint)
    (hdp : message.data_point = some dp) (hnp : ¬ dp.value = "_platform_info") :
    ∃ new_entry : MonitoringData,
      applyUpdate hs message =
        ({ hs with monitor_data := insertA hs.monitor_data message.module_spec.id new_entry },
          some { new_entry with values := [dp] }, none) ∧
      new_entry.values.getLast? = some dp ∧
      (∀ md0, lookupA hs.monitor_data message.module_spec.id = some md0 →
        (md0.values.length ≤ DATA_POINT_BUFFER_SIZE →
          new_entry.values.length ≤ DATA_POINT_BUFFER_SIZE) ∧
        (md0.values.length = DATA_POINT_BUFFER_SIZE →
          new_entry.values = md0.values.drop 1 ++ [dp])) ∧
      (lookupA hs.monitor_data message.module_spec.id = none → new_entry.values = [dp]) := by
  simp only [applyUpdate, hdp, if_neg hnp]
  cases hlook : lookupA hs.monitor_data message.module_spec.id with
  | none =>
    refine ⟨{ MonitoringData.new message.module_spec.id message.display_options with
              values := [dp] }, rfl, rfl, ?_, fun _ => rfl⟩
    intro md0 hmd0
    cases hmd0
  | some md0 =>
    refine ⟨{ md0 with
              values := if (md0.values ++ [dp]).length > DATA_POINT_BUFFER_SIZE
                        then (md0.values ++ [dp]).drop 1
                        else md0.values ++ [dp] }, rfl, ?_, ?_, ?_⟩
    · by_cases hlen : (md0.values ++ [dp]).length > DATA_POINT_BUFFER_SIZE
      · rw [if_pos hlen]
        cases hv : md0.values with
        | nil =>
          rw [hv] at hlen
          simp [DATA_POINT_BUFFER_SIZE] at hlen
        | cons a as =>
          simp
      · rw [if_neg hlen]
        simp
    · intro md1 hmd1
      cases hmd1
      constructor
      · intro hb
        by_cases hlen : (md0.values ++ [dp]).length > DATA_POINT_BUFFER_SIZE
        · rw [if_pos hlen]
          simp only [List.length_drop, List.length_append, List.length_singleton] at hlen ⊢
          omega
        · rw [if_neg hlen]
          simp only [List.length_append, List.length_singleton] at hlen ⊢
          omega
      · intro hb
        have hlen : (md0.values ++ [dp]).length > DATA_POINT_BUFFER_SIZE := by
          simp only [List.length_append, List.length_singleton]
          omega
        rw [if_pos hlen]
        cases hv : md0.values with
        | nil => rw [hv] at hb; simp [DATA_POINT_BUFFER_SIZE] at hb
        | cons a as => simp
    · intro hnone
      cases hnone

theorem applyUpdate_platform (hs : HostState) (message : StateUpdateMessage) (dp : DataPoint)
    (hdp : message.data_point = some dp) (hpi : dp.value = "_platform_info") :
    (applyUpdate hs message).1.monitor_data = hs.monitor_data ∧
    (applyUpdate hs message).1.command_results = hs.command_results ∧
    (applyUpdate hs message).1.status = hs.status ∧
    (applyUpdate hs message).1.host.name = hs.host.name ∧
    (applyUpdate hs message).1.host.fqdn = hs.host.fqdn ∧
    (applyUpdate hs message).1.host.ip_address = hs.host.ip_address ∧
    (applyUpdate hs message).2.1 = none ∧
    (applyUpdate hs message).2.2 = none := by
  simp only [applyUpdate, hdp, if_pos hpi]
  cases read_platform_info dp <;> simp

theorem applyUpdate_command (hs : HostState) (message : StateUpdateMessage) (cr : CommandResult)
    (hdp : message.data_point = none) (hcr : message.command_result = some cr) :
    applyUpdate hs message =
      ({ hs with command_results := insertA hs.command_results message.module_spec.id cr },
        none, some cr) := by
  simp [applyUpdate, hdp, hcr]

theorem applyUpdate_empty (hs : HostState) (message : StateUpdateMessage)
    (hdp : message.data_point = none) (hcr : message.command_result = none) :
    applyUpdate hs message = (hs, none, none) := by
  simp [applyUpdate, hdp, hcr]

/-! ### Claim theorems -/

/-- Claim C1, counterexample.  The claim states that every accepted
`ConnectorRequest` has its `response_handler` invoked exactly once, and
that on a connect failure the handler still receives one synthetic
`Err` result.  On the concrete fixture — a known connector that reports
disconnected and whose `connect` fails — the worker iteration takes the
`log::error!; continue` path (src/connection_manager.rs lines 97-99)
and the handler is invoked zero times, not once. -/
theorem C1_counterexample :
    handlerInvocations (handleRequest c1Connectors c1Request) = 0 ∧
    handleRequest c1Connectors c1Request = .droppedNoHandler := by
  constructor <;> rfl

/-- Claim C1 (amended): every accepted request whose connector
dependency is absent, or whose connector is connected or reconnects
successfully, has its handler invoked exactly once; but when the
connector is disconnected and `connect` fails, the handler is never
invoked and no messages are attempted. -/
theorem C1_connection_callback_amended
    (connectors : List (String × List (ModuleSpecification × ConnectionModule)))
    (req : ConnectorRequest) (hreq : req.request_type ≠ .Exit) :
    (req.connector_id = none → handlerInvocations (handleRequest connectors req) = 1) ∧
    (∀ spec c, req.connector_id = some spec →
      lookupConnector connectors req.host.name spec = some c →
      (c.is_connected = true → handlerInvocations (handleRequest connectors req) = 1) ∧
      (∀ u, c.connect req.host.ip_address = .ok u →
        handlerInvocations (handleRequest connectors req) = 1) ∧
      (∀ e, c.is_connected = false → c.connect req.host.ip_address = .error e →
        handleRequest connectors req = .droppedNoHandler ∧
        attemptedMessages (handleRequest connectors req) = [])) := by
  refine ⟨?_, ?_⟩
  · intro hnone
    simp [handleRequest, hreq, hnone, handlerInvocations]
  · intro spec c hsome hlook
    refine ⟨?_, ?_, ?_⟩
    · intro hconn
      rcases hpm : processMessages c req.request_type req.messages with ⟨rs, sent⟩
      simp [handleRequest, hreq, hsome, hlook, hconn, hpm, handlerInvocations]
    · intro u hok
      rcases hpm : processMessages c req.request_type req.messages with ⟨rs, sent⟩
      by_cases hconn : c.is_connected = true
      · simp [handleRequest, hreq, hsome, hlook, hconn, hpm, handlerInvocations]
      · simp [handleRequest, hreq, hsome, hlook, hconn, hok, hpm, handlerInvocations]
    · intro e hdisc herr
      constructor
      · simp [handleRequest, hreq, hsome, hlook, hdisc, herr]
      · simp [handleRequest, hreq, hsome, hlook, hdisc, herr, attemptedMessages]

/-- Witness for the amended C1 theorem at a concrete input: a request
with no connector dependency has its handler invoked exactly once. -/
theorem C1_connection_callback_amended_witness :
    handlerInvocations (handleRequest c1Connectors noConnectorRequest) = 1 :=
  (C1_connection_callback_amended c1Connectors noConnectorRequest (by decide)).1 rfl

/-- Claim C2, counterexample (scenario S2 of the spec).  With messages
`["ok1", "fail", "ok2"]` and connector return codes `0, 1, 0`, the
claim requires a response list of length 2 whose last entry carries
return code 1.  The code executes `break` before pushing the failing
response (src/connection_manager.rs lines 111-115), so the handler
receives a list of length 1 holding only the first response; `"fail"`
was sent, `"ok2"` was not. -/
theorem C2_counterexample :
    (processMessages s2Connector .Command ["ok1", "fail", "ok2"]).1.length = 1 ∧
    (processMessages s2Connector .Command ["ok1", "fail", "ok2"]).1 =
      [Except.ok (ResponseMessage.new "ok1")] ∧
    (processMessages s2Connector .Command ["ok1", "fail", "ok2"]).2 = ["ok1", "fail"] := by
  refine ⟨rfl, rfl, rfl⟩

/-- Claim C2 (amended): in a `Command` request, if the first `k - 1`
messages get `Ok` responses with return code 0 and message `k` gets an
`Ok` response with a non-zero return code, then the response vector has
length `k - 1` — the failing response itself is discarded by the break —
holding the `Ok` responses of the first `k - 1` messages in order, and
messages `k + 1 .. n` are never sent (message `k` is the last one
sent). -/
theorem C2_short_circuit_amended (c : ConnectionModule) (ms1 ms2 : List String)
    (mfail : String) (r : ResponseMessage)
    (h1 : ∀ m ∈ ms1, ∃ resp, c.send_message m = .ok resp ∧ resp.return_code = 0)
    (hk : c.send_message mfail = .ok r) (hrc : r.return_code ≠ 0) :
    processMessages c .Command (ms1 ++ mfail :: ms2) =
      (ms1.map (fun m => c.send_message m), ms1 ++ [mfail]) ∧
    (processMessages c .Command (ms1 ++ mfail :: ms2)).1.length = ms1.length := by
  have key : processMessages c .Command (ms1 ++ mfail :: ms2) =
      (ms1.map (fun m => c.send_message m), ms1 ++ [mfail]) := by
    induction ms1 with
    | nil =>
      simp [processMessages, hk, hrc]
    | cons a as ih =>
      obtain ⟨resp, hok, hc0⟩ := h1 a (List.mem_cons_self a as)
      have ih2 := ih (fun m hm => h1 m (List.mem_cons_of_mem a hm))
      simp [processMessages, hok, hc0, ih2]
  exact ⟨key, by rw [key]; simp⟩

/-- Witness for the amended C2 theorem at the scenario S2 input. -/
theorem C2_short_circuit_amended_witness :
    processMessages s2Connector .Command (["ok1"] ++ "fail" :: ["ok2"]) =
      (["ok1"].map (fun m => s2Connector.send_message m), ["ok1"] ++ ["fail"]) :=
  (C2_short_circuit_amended s2Connector ["ok1"] ["ok2"] "fail" failResponse
    (by
      intro m hm
      rw [List.mem_singleton] at hm
      subst hm
      exact ⟨ResponseMessage.new "ok1", rfl, rfl⟩)
    rfl (by decide)).1

theorem with_invocation_id_invocation_id (dp : DataPoint) (i : Nat) :
    (dp.with_invocation_id i).invocation_id = i := by
  cases dp
  rfl

theorem mem_errorsOf (results : List (Except String ResponseMessage)) (e : String)
    (h : Except.error e ∈ results) : e ∈ errorsOf results := by
  unfold errorsOf
  rw [List.mem_filterMap]
  exact ⟨Except.error e, h, rfl⟩

theorem errorsOf_isEmpty_false (results : List (Except String ResponseMessage)) (e : String)
    (h : Except.error e ∈ results) : (errorsOf results).isEmpty = false := by
  have hm := mem_errorsOf results e h
  cases he : errorsOf results with
  | nil => rw [he] at hm; cases hm
  | cons x xs => rfl

/-- Claim C3, counterexample (scenario S3 with a failing base).  The
base monitor receives only a connector error, yet the published data
point is the extension's output `"1-ext"` under the extension's module
spec — in `MonitorManager::get_response_handler` the error branch only
logs (src/monitor_manager.rs lines 239-243) and the recursion on the
remaining modules (lines 248-251) still runs, so the extension IS
invoked and the base's failure is not what gets published. -/
theorem C3_counterexample :
    runChain 7 DataPoint.empty_and_critical
      [(monB, [Except.error "connection error"]),
       (monE, [Except.ok (ResponseMessage.new "raw")])] =
      some (monE.spec, dpExtension.with_invocation_id 7) ∧
    dpExtension.value = "1-ext" ∧
    DataPoint.empty_and_critical.value = "" := by
  refine ⟨rfl, rfl, rfl⟩

/-- Claim C3 (amended): for a base `B` with extension `E` refreshed
under one invocation id, the published data point is always `E`'s stage
applied to `B`'s stage result, both stages stamped with the same
invocation id.  When `B` succeeds, `B`'s stage result is its processed
data point, so the published point equals `E`'s processing of `B`'s
processed result; when `B` fails (a connector error, or a processing
error), `B`'s stage result falls back to the unchanged parent result
with the invocation id attached, and `E` is still invoked with that
fallback rather than skipped. -/
theorem C3_extension_composition_amended (B E : Monitor)
    (rawB rawE : List (Except String ResponseMessage)) (inv : Nat) (parent : DataPoint) :
    runChain inv parent [(B, rawB), (E, rawE)] =
      some (E.spec, stageResult E rawE inv (stageResult B rawB inv parent)) ∧
    (stageResult B rawB inv parent).invocation_id = inv ∧
    (stageResult E rawE inv (stageResult B rawB inv parent)).invocation_id = inv ∧
    (∀ e, Except.error e ∈ rawB →
      stageResult B rawB inv parent = parent.with_invocation_id inv) ∧
    (∀ em, errorsOf rawB = [] →
      stageProcess B (okResponses rawB) parent = .error em →
      stageResult B rawB inv parent = parent.with_invocation_id inv) ∧
    (∀ dpB, errorsOf rawB = [] →
      stageProcess B (okResponses rawB) parent = .ok dpB →
      stageResult B rawB inv parent = dpB.with_invocation_id inv) := by
  refine ⟨rfl, with_invocation_id_invocation_id _ _, with_invocation_id_invocation_id _ _,
    ?_, ?_, ?_⟩
  · intro e he
    have hne := errorsOf_isEmpty_false rawB e he
    simp [stageResult, hne]
  · intro em hE hsp
    simp [stageResult, hE, hsp]
  · intro dpB hE hsp
    simp [stageResult, hE, hsp]

/-- Witness for the amended C3 theorem: a base whose only raw result is
a connector error yields the stamped fallback parent result. -/
theorem C3_extension_composition_amended_witness :
    stageResult monB [Except.error "boom"] 3 DataPoint.empty =
      DataPoint.empty.with_invocation_id 3 :=
  (C3_extension_composition_amended monB monE [Except.error "boom"] [] 3
    DataPoint.empty).2.2.2.1 "boom" (List.mem_singleton.mpr rfl)

/-- Claim C4, counterexample.  `pendingHosts` holds host `h1` in
`Pending` status and `cmdResultMsg` carries only a `CommandResult`
(no data point), so by the claim the host must stay `Pending`; but the
update worker calls `update_status` unconditionally
(src/host_manager.rs line 144) and with no monitor data the `find`
comes up empty, so the published status is `Up`. -/
theorem C4_counterexample :
    (lookupA pendingHosts "h1").map HostState.status = some .Pending ∧
    cmdResultMsg.data_point = none ∧
    stepStatus (processUpdate pendingHosts cmdResultMsg) = some .Up := by
  refine ⟨rfl, rfl, rfl⟩

/-- Claim C4 (amended): after the update worker processes any non-exit
message for a known host, the host status is `Down` iff some monitor
entry is `is_critical` with its latest point at `Critical` level, and
`Up` otherwise; status never remains `Pending` after a processed
message — even one carrying only a `CommandResult` or platform info —
and the status fanned out to observers equals the stored one. -/
theorem C4_status_law_amended (hosts : List (String × HostState))
    (message : StateUpdateMessage) (hosts2 : List (String × HostState))
    (display : HostDisplayData)
    (hstep : processUpdate hosts message = .updated hosts2 display) :
    ∃ hs, lookupA hosts2 message.host_name = some hs ∧
      (hs.status = .Down ↔ downCondition hs.monitor_data = true) ∧
      (hs.status = .Down ∨ hs.status = .Up) ∧
      display.status = hs.status := by
  obtain ⟨-, host_state, hs2, hlook, hupd, hh2, hdisp⟩ :=
    processUpdate_updated hosts message hosts2 display hstep
  obtain ⟨hhost, hmon, hcmd, hiff, hud⟩ := update_status_spec _ _ hupd
  refine ⟨hs2, ?_, ?_, hud, ?_⟩
  · rw [hh2]
    exact lookupA_insertA_self hosts message.host_name hs2
  · rw [hmon]
    exact hiff
  · rw [hdisp]

/-- Witness for the amended C4 theorem at the concrete input of the
counterexample fixture. -/
theorem C4_status_law_amended_witness :
    ∃ hs, lookupA c4OutHosts cmdResultMsg.host_name = some hs ∧
      (hs.status = .Down ↔ downCondition hs.monitor_data = true) ∧
      (hs.status = .Down ∨ hs.status = .Up) ∧
      c4OutDisplay.status = hs.status :=
  C4_status_law_amended pendingHosts cmdResultMsg c4OutHosts c4OutDisplay rfl

theorem applyUpdate_bound (host_state : HostState) (message : StateUpdateMessage)
    (hb : ∀ q ∈ host_state.monitor_data, q.2.values.length ≤ DATA_POINT_BUFFER_SIZE) :
    ∀ q ∈ (applyUpdate host_state message).1.monitor_data,
      q.2.values.length ≤ DATA_POINT_BUFFER_SIZE := by
  cases hdp : message.data_point with
  | none =>
    cases hcr : message.command_result with
    | none =>
      rw [applyUpdate_empty host_state message hdp hcr]
      exact hb
    | some cr =>
      rw [applyUpdate_command host_state message cr hdp hcr]
      exact hb
  | some dp =>
    by_cases hpi : dp.value = "_platform_info"
    · have hplat := (applyUpdate_platform host_state message dp hdp hpi).1
      rw [hplat]
      exact hb
    · obtain ⟨new_entry, happ, hlast, hsome, hnone⟩ :=
        applyUpdate_data_point host_state message dp hdp hpi
      rw [happ]
      intro q hq
      rcases mem_insertA _ _ _ q hq with hqe | hqo
      · cases hqe
        cases hl : lookupA host_state.monitor_data message.module_spec.id with
        | none =>
          rw [hnone hl]
          simp [DATA_POINT_BUFFER_SIZE]
        | some md0 =>
          exact (hsome md0 hl).1
            (hb (message.module_spec.id, md0) (lookupA_mem _ _ _ hl))
      · exact hb q hqo

/-- Claim C5 (confirmed): starting from a host table whose monitor
value rings all respect the `DATA_POINT_BUFFER_SIZE = 4` bound, one
worker step preserves the bound for every host and monitor id; for a
monitor data point the updated entry has the fresh point at the back,
appending to a full ring drops the front point, and the
`new_monitoring_data` delta sent to observers holds exactly the one
fresh point. -/
theorem C5_ring_buffer (hosts : List (String × HostState))
    (message : StateUpdateMessage) (hosts2 : List (String × HostState))
    (display : HostDisplayData)
    (hinv : ∀ p ∈ hosts, ∀ q ∈ p.2.monitor_data,
      q.2.values.length ≤ DATA_POINT_BUFFER_SIZE)
    (hstep : processUpdate hosts message = .updated hosts2 display) :
    (∀ p ∈ hosts2, ∀ q ∈ p.2.monitor_data,
      q.2.values.length ≤ DATA_POINT_BUFFER_SIZE) ∧
    (∀ dp, message.data_point = some dp → dp.value ≠ "_platform_info" →
      ∃ hs md, lookupA hosts2 message.host_name = some hs ∧
        lookupA hs.monitor_data message.module_spec.id = some md ∧
        md.values.getLast? = some dp ∧
        (∀ hs0 md0, lookupA hosts message.host_name = some hs0 →
          lookupA hs0.monitor_data message.module_spec.id = some md0 →
          md0.values.length = DATA_POINT_BUFFER_SIZE →
          md.values = md0.values.drop 1 ++ [dp]) ∧
        (∃ md1, display.new_monitoring_data = some md1 ∧ md1.values = [dp])) := by
  obtain ⟨hexit, host_state, hs2, hlook, hupd, hh2, hdisp⟩ :=
    processUpdate_updated hosts message hosts2 display hstep
  obtain ⟨hhost, hmon, hcmd, hiff, hud⟩ := update_status_spec _ _ hupd
  have hb0 : ∀ q ∈ host_state.monitor_data, q.2.values.length ≤ DATA_POINT_BUFFER_SIZE :=
    fun q hq => hinv (message.host_name, host_state) (lookupA_mem _ _ _ hlook) q hq
  constructor
  · intro p hp q hq
    rw [hh2] at hp
    rcases mem_insertA _ _ _ p hp with hpe | hpo
    · cases hpe
      rw [hmon] at hq
      exact applyUpdate_bound host_state message hb0 q hq
    · exact hinv p hpo q hq
  · intro dp hdp hnp
    obtain ⟨new_entry, happ, hlast, hsome, hnone⟩ :=
      applyUpdate_data_point host_state message dp hdp hnp
    refine ⟨hs2, new_entry, ?_, ?_, hlast, ?_, ?_⟩
    · rw [hh2]
      exact lookupA_insertA_self hosts message.host_name hs2
    · rw [hmon, happ]
      exact lookupA_insertA_self _ _ _
    · intro hs0 md0 hlook0 hmd0 hfull
      rw [hlook] at hlook0
      cases hlook0
      exact (hsome md0 hmd0).2 hfull
    · rw [hdisp]
      refine ⟨{ new_entry with values := [dp] }, ?_, rfl⟩
      rw [happ]

/-- Witness for the C5 theorem at a concrete input: a full 4-point ring
receiving a fifth point. -/
theorem C5_ring_buffer_witness :
    (∀ p ∈ c5OutHosts, ∀ q ∈ p.2.monitor_data,
      q.2.values.length ≤ DATA_POINT_BUFFER_SIZE) ∧
    (∀ dp, c5Msg.data_point = some dp → dp.value ≠ "_platform_info" →
      ∃ hs md, lookupA c5OutHosts c5Msg.host_name = some hs ∧
        lookupA hs.monitor_data c5Msg.module_spec.id = some md ∧
        md.values.getLast? = some dp ∧
        (∀ hs0 md0, lookupA c5Hosts c5Msg.host_name = some hs0 →
          lookupA hs0.monitor_data c5Msg.module_spec.id = some md0 →
          md0.values.length = DATA_POINT_BUFFER_SIZE →
          md.values = md0.values.drop 1 ++ [dp]) ∧
        (∃ md1, c5OutDisplay.new_monitoring_data = some md1 ∧ md1.values = [dp])) :=
  C5_ring_buffer c5Hosts c5Msg c5OutHosts c5OutDisplay
    (by
      intro p hp q hq
      rw [c5Hosts, List.mem_singleton] at hp
      subst hp
      rw [show (("h1", c5State) : String × HostState).2.monitor_data =
            [("disk", fullMonitoringData)] from rfl, List.mem_singleton] at hq
      subst hq
      decide)
    rfl

/-- Claim C7, counterexample.  For a known host in `Pending` status, a
`"_platform_info"` data point is claimed to mutate only the
`Host.platform` field of the host state; but the worker still calls
`update_status` (src/host_manager.rs line 144), so the `status` field
of the same host state also changes, from `Pending` to `Up`. -/
theorem C7_counterexample :
    (lookupA pendingHosts "h1").map HostState.status = some .Pending ∧
    platformMsg.data_point.map DataPoint.value = some "_platform_info" ∧
    stepStatus (processUpdate pendingHosts platformMsg) = some .Up := by
  refine ⟨rfl, rfl, rfl⟩

/-- Claim C7 (amended): a `"_platform_info"` data point for a known
host leaves `monitor_data` and `command_results` untouched — in
particular no entry for the message's module id is inserted — the
observer deltas stay empty, and the `Host` fields other than `platform`
are unchanged; but `status` is still recomputed by the status law (so a
`Pending` host moves to `Up` or `Down`). -/
theorem C7_platform_info_amended (hosts : List (String × HostState))
    (message : StateUpdateMessage) (hosts2 : List (String × HostState))
    (display : HostDisplayData) (dp : DataPoint)
    (hdp : message.data_point = some dp) (hpi : dp.value = "_platform_info")
    (hstep : processUpdate hosts message = .updated hosts2 display) :
    ∃ hs0 hs, lookupA hosts message.host_name = some hs0 ∧
      lookupA hosts2 message.host_name = some hs ∧
      hs.monitor_data = hs0.monitor_data ∧
      hs.command_results = hs0.command_results ∧
      hs.host.name = hs0.host.name ∧
      hs.host.fqdn = hs0.host.fqdn ∧
      hs.host.ip_address = hs0.host.ip_address ∧
      display.new_monitoring_data = none ∧
      display.new_command_results = none ∧
      (hs.status = .Down ↔ downCondition hs0.monitor_data = true) ∧
      (hs.status = .Down ∨ hs.status = .Up) := by
  obtain ⟨hexit, host_state, hs2, hlook, hupd, hh2, hdisp⟩ :=
    processUpdate_updated hosts message hosts2 display hstep
  obtain ⟨hmon1, hcmd1, hst1, hname1, hfqdn1, hip1, hnm1, hnc1⟩ :=
    applyUpdate_platform host_state message dp hdp hpi
  obtain ⟨hhost, hmon, hcmd, hiff, hud⟩ := update_status_spec _ _ hupd
  refine ⟨host_state, hs2, hlook, ?_, ?_, ?_, ?_, ?_, ?_, ?_, ?_, ?_, hud⟩
  · rw [hh2]
    exact lookupA_insertA_self hosts message.host_name hs2
  · rw [hmon, hmon1]
  · rw [hcmd, hcmd1]
  · rw [hhost, hname1]
  · rw [hhost, hfqdn1]
  · rw [hhost, hip1]
  · rw [hdisp]
    exact hnm1
  · rw [hdisp]
    exact hnc1
  · rw [hmon1] at hiff
    exact hiff

/-- Witness for the amended C7 theorem at the concrete fixture. -/
theorem C7_platform_info_amended_witness :
    ∃ hs0 hs, lookupA pendingHosts platformMsg.host_name = some hs0 ∧
      lookupA c7OutHosts platformMsg.host_name = some hs ∧
      hs.monitor_data = hs0.monitor_data ∧
      hs.command_results = hs0.command_results ∧
      hs.host.name = hs0.host.name ∧
      hs.host.fqdn = hs0.host.fqdn ∧
      hs.host.ip_address = hs0.host.ip_address ∧
      c7OutDisplay.new_monitoring_data = none ∧
      c7OutDisplay.new_command_results = none ∧
      (hs.status = .Down ↔ downCondition hs0.monitor_data = true) ∧
      (hs.status = .Down ∨ hs.status = .Up) :=
  C7_platform_info_amended pendingHosts platformMsg c7OutHosts c7OutDisplay
    (.mk "" "_platform_info" .Normal
      [.mk "os" "linux" .Normal [] 0, .mk "os_version" "12" .Normal [] 0] 0)
    rfl rfl rfl

/-- Claim C8, counterexample.  A non-exit message for the unknown host
name `"ghost"` does not get dropped: the worker hits the failed
`unwrap()` on `hosts.hosts.get_mut(..)` (src/host_manager.rs line 99)
and panics, terminating the update thread. -/
theorem C8_counterexample :
    processUpdate pendingHosts unknownHostMsg = .panicked := by
  rfl

/-- Claim C8 (amended): whenever a non-exit `StateUpdateMessage` names
a host absent from the table, the update worker panics on the
`unwrap()` of the host lookup instead of dropping the message and
continuing. -/
theorem C8_unknown_host_amended (hosts : List (String × HostState))
    (message : StateUpdateMessage) (hexit : message.exit_thread = false)
    (hunknown : lookupA hosts message.host_name = none) :
    processUpdate hosts message = .panicked := by
  simp [processUpdate, hexit, hunknown]

/-- Witness for the amended C8 theorem on a concrete unknown host. -/
theorem C8_unknown_host_amended_witness :
    processUpdate [] unknownHostMsg2 = .panicked :=
  C8_unknown_host_amended [] unknownHostMsg2 rfl rfl

/-- Claim C9 (confirmed): `HostManager::add_host` rejects a duplicate
host name with an error (no insertion happens), and otherwise inserts
the host with initial status `Pending` and empty monitor data and
command results, leaving every other key unchanged. -/
theorem C9_add_host (hosts : List (String × HostState)) (host : Host) :
    ((lookupA hosts host.name).isSome = true →
      HostManager.add_host hosts host = .error "Host already exists") ∧
    (lookupA hosts host.name = none →
      HostManager.add_host hosts host =
        .ok (insertA hosts host.name
          { host := host, status := .Pending, monitor_data := [], command_results := [] }) ∧
      lookupA (insertA hosts host.name (HostState.from_host host .Pending)) host.name =
        some { host := host, status := .Pending, monitor_data := [], command_results := [] } ∧
      ∀ k, k ≠ host.name →
        lookupA (insertA hosts host.name (HostState.from_host host .Pending)) k =
          lookupA hosts k) := by
  constructor
  · intro hdup
    unfold HostManager.add_host HostCollection.add
    rw [if_pos hdup]
  · intro hfresh
    refine ⟨?_, lookupA_insertA_self _ _ _, fun k hk => lookupA_insertA_ne _ _ _ _ hk⟩
    unfold HostManager.add_host HostCollection.add
    rw [if_neg (by rw [hfresh]; simp)]
    exact rfl

/-- Witness for the C9 theorem: adding `h2` to the empty table. -/
theorem C9_add_host_witness :
    HostManager.add_host [] hostH2 =
      .ok (insertA [] hostH2.name
        { host := hostH2, status := .Pending, monitor_data := [], command_results := [] }) ∧
    lookupA (insertA [] hostH2.name (HostState.from_host hostH2 .Pending)) hostH2.name =
      some { host := hostH2, status := .Pending, monitor_data := [], command_results := [] } ∧
    ∀ k, k ≠ hostH2.name →
      lookupA (insertA [] hostH2.name (HostState.from_host hostH2 .Pending)) k =
        lookupA [] k :=
  (C9_add_host [] hostH2).2 rfl

theorem range'_ids_facts (c n c2 : Nat)
    (hlast : (List.range' (c + 1) n).getLast? = some c2) :
    List.range' (c + 1) n ≠ [] ∧
    List.Chain' (· < ·) (List.range' (c + 1) n) ∧
    (∀ i ∈ List.range' (c + 1) n, c < i ∧ 1 ≤ i ∧ i ≤ c2) := by
  have hchain : List.Chain' (· < ·) (List.range' (c + 1) n) :=
    (List.pairwise_lt_range' (c + 1) n 1 Nat.one_pos).chain'
  cases n with
  | zero => simp at hlast
  | succ m =>
    have hc2 : c2 = c + 1 + m := by
      rw [List.range'_concat, List.getLast?_concat] at hlast
      simp only [Option.some.injEq] at hlast
      omega
    refine ⟨by simp [List.range'_succ], hchain, ?_⟩
    intro i hi
    rw [List.mem_range'_1] at hi
    omega

/-- Claim C6, counterexample.  `refresh_host_monitors` over two host
collections calls `refresh_monitors` (which takes `&self` and starts
from the not-yet-advanced counter) once per host
(src/monitor_manager.rs lines 140-147), so a single successful call
returns the duplicate id list `[1, 1]` — not strictly increasing — and
the next call will reuse id 2 only once even though two refreshes
happened. -/
theorem C6_counterexample :
    refresh_host_monitors 0 [[uptimeMonitor], [uptimeMonitor]] = some ([1, 1], 1) ∧
    ¬ List.Chain' (· < ·) [1, 1] := by
  constructor
  · rfl
  · intro hchain
    rcases List.chain'_cons.mp hchain with ⟨hlt, -⟩
    exact Nat.lt_irrefl 1 hlt

/-- Claim C6 (amended): `CommandHandler::execute` returns 0 without
consuming an id and publishes an error `CommandResult` when connector
message generation fails with a non-empty error, and otherwise consumes
and returns the next id `counter + 1`; the single-collection refresh
calls (`refresh_monitors_of_category`, `refresh_monitors_by_id`) return
a non-empty, strictly increasing list of positive ids, each above the
incoming counter and at most the stored new counter (the last returned
id) — so successive successful calls return strictly increasing ids;
`refresh_host_monitors` however concatenates per-host id ranges that
all restart from the same incoming counter, so one call across several
hosts can return duplicate ids. -/
theorem C6_invocation_ids_amended :
    (∀ counter multi single e,
      get_command_connector_messages multi single = .error e →
      CommandHandler.execute counter multi single =
        { returned_id := 0, counter_after := counter,
          error_update := some (CommandResult.new_error e), request_sent := false }) ∧
    (∀ counter multi single messages,
      get_command_connector_messages multi single = .ok messages →
      CommandHandler.execute counter multi single =
        { returned_id := counter + 1, counter_after := counter + 1,
          error_update := none, request_sent := true }) ∧
    (∀ counter monitors category ids counter2,
      refresh_monitors_of_category counter monitors category = some (ids, counter2) →
      ids ≠ [] ∧ List.Chain' (· < ·) ids ∧
      (∀ i ∈ ids, counter < i ∧ 1 ≤ i ∧ i ≤ counter2) ∧
      ids.getLast? = some counter2) ∧
    (∀ counter monitors monitor_id ids counter2,
      refresh_monitors_by_id counter monitors monitor_id = some (ids, counter2) →
      ids ≠ [] ∧ List.Chain' (· < ·) ids ∧
      (∀ i ∈ ids, counter < i ∧ 1 ≤ i ∧ i ≤ counter2) ∧
      ids.getLast? = some counter2) ∧
    (∀ counter collections ids counter2,
      refresh_host_monitors counter collections = some (ids, counter2) →
      ids = (collections.map (fun coll => refresh_monitors_ids counter coll)).flatten ∧
      ids.getLast? = some counter2) := by
  refine ⟨?_, ?_, ?_, ?_, ?_⟩
  · intro counter multi single e h
    simp [CommandHandler.execute, h]
  · intro counter multi single messages h
    simp [CommandHandler.execute, h]
  · intro counter monitors category ids counter2 h
    simp only [refresh_monitors_of_category] at h
    cases hl : (refresh_monitors_ids counter
        (monitors.filter (fun m => m.category = category))).getLast? with
    | none => rw [hl] at h; cases h
    | some last =>
      rw [hl] at h
      simp only [Option.some.injEq, Prod.mk.injEq] at h
      obtain ⟨hids, hc2⟩ := h
      subst hids
      subst hc2
      obtain ⟨hne, hchain, hmem⟩ := range'_ids_facts counter _ last hl
      exact ⟨hne, hchain, hmem, hl⟩
  · intro counter monitors monitor_id ids counter2 h
    simp only [refresh_monitors_by_id] at h
    cases hl : (refresh_monitors_ids counter
        (monitors.filter (fun m => m.spec.id = monitor_id))).getLast? with
    | none => rw [hl] at h; cases h
    | some last =>
      rw [hl] at h
      simp only [Option.some.injEq, Prod.mk.injEq] at h
      obtain ⟨hids, hc2⟩ := h
      subst hids
      subst hc2
      obtain ⟨hne, hchain, hmem⟩ := range'_ids_facts counter _ last hl
      exact ⟨hne, hchain, hmem, hl⟩
  · intro counter collections ids counter2 h
    simp only [refresh_host_monitors] at h
    cases hl : ((collections.map (fun coll => refresh_monitors_ids counter coll)).flatten).getLast? with
    | none => rw [hl] at h; cases h
    | some last =>
      rw [hl] at h
      simp only [Option.some.injEq, Prod.mk.injEq] at h
      obtain ⟨hids, hc2⟩ := h
      subst hids
      subst hc2
      exact ⟨rfl, hl⟩

/-- Witness for the amended C6 theorem: an execute call whose message
generation fails with the non-empty error `"bad"` returns id 0, leaves
the counter untouched and publishes the error result. -/
theorem C6_invocation_ids_amended_witness :
    CommandHandler.execute 5 (Except.error "bad") (Except.ok "m") =
      { returned_id := 0, counter_after := 5,
        error_update := some (CommandResult.new_error "bad"), request_sent := false } :=
  C6_invocation_ids_amended.1 5 (Except.error "bad") (Except.ok "m") "bad" rfl

/-- Claim C10 (confirmed): when the category filter matches none of the
host monitors, or the monitor id is absent, or no monitor is dispatched
by `refresh_host_monitors` (every selected monitor is an extension),
the refresh call hits `invocation_ids.last().unwrap()` on an empty
vector (src/monitor_manager.rs lines 116, 129, 146) and panics —
modelled as `none` — instead of returning an empty id list. -/
theorem C10_refresh_empty_panics (counter : Nat) (monitors : List Monitor)
    (category monitor_id : String) (collections : List (List Monitor))
    (h1 : ∀ m ∈ monitors, ¬ m.category = category)
    (h2 : ∀ m ∈ monitors, ¬ m.spec.id = monitor_id)
    (h3 : ∀ coll ∈ collections, ∀ m ∈ coll, (m.parent_module).isSome = true) :
    refresh_monitors_of_category counter monitors category = none ∧
    refresh_monitors_by_id counter monitors monitor_id = none ∧
    refresh_host_monitors counter collections = none := by
  refine ⟨?_, ?_, ?_⟩
  · have hfil : monitors.filter (fun m => m.category = category) = [] := by
      rw [List.filter_eq_nil_iff]
      intro m hm
      simpa using h1 m hm
    simp [refresh_monitors_of_category, refresh_monitors_ids, hfil]
  · have hfil : monitors.filter (fun m => m.spec.id = monitor_id) = [] := by
      rw [List.filter_eq_nil_iff]
      intro m hm
      simpa using h2 m hm
    simp [refresh_monitors_by_id, refresh_monitors_ids, hfil]
  · have hids : (collections.map (fun coll => refresh_monitors_ids counter coll)).flatten = [] := by
      rw [List.flatten_eq_nil_iff]
      intro l hl
      rw [List.mem_map] at hl
      obtain ⟨coll, hcoll, hml⟩ := hl
      subst hml
      have hfil : coll.filter (fun m => m.parent_module.isNone) = [] := by
        rw [List.filter_eq_nil_iff]
        intro m hm
        have hs := h3 coll hcoll m hm
        cases hpm : m.parent_module with
        | none => rw [hpm] at hs; cases hs
        | some p => simp [hpm]
      simp [refresh_monitors_ids, hfil]
    simp [refresh_host_monitors, hids]

/-- Witness for the C10 theorem: a host with only the `uptime` base
monitor refreshed under category `"network"` or id `"whoami"`, and a
host collection holding only an extension monitor, all panic. -/
theorem C10_refresh_empty_panics_witness :
    refresh_monitors_of_category 0 [uptimeMonitor] "network" = none ∧
    refresh_monitors_by_id 0 [uptimeMonitor] "whoami" = none ∧
    refresh_host_monitors 0 [[uptimeExtension]] = none :=
  C10_refresh_empty_panics 0 [uptimeMonitor] "network" "whoami" [[uptimeExtension]]
    (by
      intro m hm
      rw [List.mem_singleton] at hm
      subst hm
      decide)
    (by
      intro m hm
      rw [List.mem_singleton] at hm
      subst hm
      decide)
    (by
      intro coll hcoll
      rw [List.mem_singleton] at hcoll
      subst hcoll
      intro m hm
      rw [List.mem_singleton] at hm
      subst hm
      rfl)

end Lightkeeper
